import Mathlib

/- Shallow embedding of two modules of the azure-sdk-for-c sources:
   the diagnostic logging facility (az_log.c) and the storage blobs
   client (az_storage_blobs_blob_client.c), followed by theorems about
   the behavior of their operations.

   Machine integers are modelled as Int/Nat (every quantity involved
   stays far from any overflow boundary).  A C function whose loop can
   run past the end of its array (undefined behavior) is modelled as
   returning an Option, with none standing for the run-off. -/

/-- Modelled from the spec: an az_span message is an immutable, non-owned
view of bytes plus length (az_span.h is outside the embedded sources);
it is modelled as its byte contents. -/
abbrev az_span := List Nat

/-- Modelled from the spec: AZ_SPAN_EMPTY, the empty byte view. -/
def AZ_SPAN_EMPTY : az_span := []

/-- Modelled from the spec: the reserved sentinel tag AZ_LOG_END_OF_LIST that
terminates a classification filter.  The numeric enum values live in az_log.h,
which is outside the embedded sources; only the mutual distinctness of the
tags and the sentinel matters in the development below. -/
def AZ_LOG_END_OF_LIST : Int := -1

/-- Modelled from the spec: classification tag (enum value from az_log.h). -/
def AZ_LOG_HTTP_REQUEST : Int := 1

/-- Modelled from the spec: classification tag (enum value from az_log.h). -/
def AZ_LOG_HTTP_RESPONSE : Int := 2

/-- Modelled from the spec: classification tag (enum value from az_log.h). -/
def AZ_LOG_HTTP_RETRY : Int := 3

/-- Modelled from the spec: classification tag (enum value from az_log.h). -/
def AZ_LOG_MQTT_RECEIVED_TOPIC : Int := 4

/-- Modelled from the spec: classification tag (enum value from az_log.h). -/
def AZ_LOG_MQTT_RECEIVED_PAYLOAD : Int := 5

/-- Modelled from the spec: classification tag (enum value from az_log.h). -/
def AZ_LOG_IOT_RETRY : Int := 6

/-- Modelled from the spec: classification tag (enum value from az_log.h). -/
def AZ_LOG_IOT_SAS_TOKEN : Int := 7

/-- Modelled from the spec: classification tag (enum value from az_log.h). -/
def AZ_LOG_IOT_AZURERTOS : Int := 8

/-- The classification tags accepted by the switch statement inside
_az_log_classifications_are_valid (az_log.c, lines 34-47), in source order. -/
def knownClassifications : List Int :=
  [AZ_LOG_HTTP_REQUEST, AZ_LOG_HTTP_RESPONSE, AZ_LOG_HTTP_RETRY,
   AZ_LOG_MQTT_RECEIVED_TOPIC, AZ_LOG_MQTT_RECEIVED_PAYLOAD,
   AZ_LOG_IOT_RETRY, AZ_LOG_IOT_SAS_TOKEN, AZ_LOG_IOT_AZURERTOS]

/-- The two process-wide mutable slots of az_log.c (lines 19-20):
_az_log_classifications (the installed filter, NULL or a pointer to a
sentinel-terminated array, modelled as the array's contents) and
_az_log_message_callback (the registered callback, modelled by an
abstract identity since only presence and invocation matter). -/
structure LogRegistry where
  classifications : Option (List Int)
  callback : Option Nat
deriving DecidableEq

/-- The initial registry state: both statics are NULL (az_log.c, lines 19-20). -/
def az_log_initial : LogRegistry := { classifications := none, callback := none }

/-- The entries of a filter that occur strictly before the first
AZ_LOG_END_OF_LIST sentinel: the portion the scan in az_log.c can inspect. -/
def beforeSentinel : List Int → List Int
  | [] => []
  | cls :: rest =>
    if cls = AZ_LOG_END_OF_LIST then [] else cls :: beforeSentinel rest

/-- The validation loop of _az_log_classifications_are_valid (az_log.c,
lines 32-48): walk the array until the sentinel, reporting false at the
first tag outside the known set.  Running past the end of the array
(a filter without a sentinel) is undefined behavior, modelled as none. -/
def _az_log_classifications_are_valid_loop : List Int → Option Bool
  | [] => none
  | cls :: rest =>
    if cls = AZ_LOG_END_OF_LIST then some true
    else if cls ∈ knownClassifications then _az_log_classifications_are_valid_loop rest
    else some false

/-- _az_log_classifications_are_valid (az_log.c, lines 26-50): NULL is
valid; otherwise the array is scanned up to its sentinel. -/
def _az_log_classifications_are_valid (classifications : Option (List Int)) : Option Bool :=
  match classifications with
  | none => some true
  | some l => _az_log_classifications_are_valid_loop l

/-- az_log_set_classifications (az_log.c, lines 53-57) in a debug build:
the precondition _az_log_classifications_are_valid is checked; an
assertion failure (modelled as none) stops the operation, otherwise the
filter slot is replaced. -/
def az_log_set_classifications (classifications : Option (List Int)) (st : LogRegistry) :
    Option LogRegistry :=
  if _az_log_classifications_are_valid classifications = some true then
    some { st with classifications := classifications }
  else
    none

/-- az_log_set_callback (az_log.c, lines 59-62): replace the callback slot. -/
def az_log_set_callback (callback : Option Nat) (st : LogRegistry) : LogRegistry :=
  { st with callback := callback }

/-- The scan loop of _az_log_write_engine (az_log.c, lines 92-104): walk the
filter; at the sentinel return false; at an entry equal to the requested
classification return true and, when log_it is set, invoke the callback once
with the classification and the message (the invocation trace is returned).
Running past the end of the array is undefined behavior, modelled as none. -/
def scanEmit (log_it : Bool) (classification : Int) (message : az_span) :
    List Int → Option (Bool × List (Int × az_span))
  | [] => none
  | cls :: rest =>
    if cls = AZ_LOG_END_OF_LIST then some (false, [])
    else if cls = classification then
      some (true, if log_it then [(classification, message)] else [])
    else scanEmit log_it classification message rest

/-- The decision-only reading of the same scan loop (az_log.c, lines 92-104):
true when the classification is found before the sentinel, false at the
sentinel, none when the scan runs off the end of the array. -/
def scanFilter (classification : Int) : List Int → Option Bool
  | [] => none
  | cls :: rest =>
    if cls = AZ_LOG_END_OF_LIST then some false
    else if cls = classification then some true
    else scanFilter classification rest

/-- _az_log_write_engine (az_log.c, lines 72-108): snapshot the two slots;
with no callback answer false with no emission; with no filter point the
scan at the one-element array holding the requested classification; then
run the scan loop.  The result pairs the decision with the trace of
callback invocations. -/
def _az_log_write_engine (log_it : Bool) (classification : Int) (message : az_span)
    (st : LogRegistry) : Option (Bool × List (Int × az_span)) :=
  match st.callback with
  | none => some (false, [])
  | some _ =>
    scanEmit log_it classification message (st.classifications.getD [classification])

/-- _az_log_should_write (az_log.c, lines 111-114): the engine with
log_it = false and an empty message; only the decision is returned. -/
def _az_log_should_write (classification : Int) (st : LogRegistry) : Option Bool :=
  (_az_log_write_engine false classification AZ_SPAN_EMPTY st).map Prod.fst

/-- _az_log_write (az_log.c, lines 117-120): the engine with log_it = true;
the value observable to the caller is the trace of callback invocations. -/
def _az_log_write (classification : Int) (message : az_span) (st : LogRegistry) :
    Option (List (Int × az_span)) :=
  (_az_log_write_engine true classification message st).map Prod.snd

/-- az_result (az_result.h, outside the embedded sources): success or a
distinct failure value.  Only AZ_OK and the capacity failure
AZ_ERROR_NOT_ENOUGH_SPACE are distinguished by the embedded code; every
other failure is collapsed into AZ_ERROR_ARG. -/
inductive az_result
  | AZ_OK
  | AZ_ERROR_NOT_ENOUGH_SPACE
  | AZ_ERROR_ARG
deriving DecidableEq

/-- Modelled from the spec: the millisecond conversion constant of
az_config_internal.h, outside the embedded sources. -/
def _az_TIME_MILLISECONDS_PER_SECOND : Int := 1000

/-- The retry options set by az_storage_blobs_blob_client_options_default
(az_storage_blobs_blob_client.c, lines 47-52); the other option groups
(api version, telemetry) are opaque configuration blobs not consulted by
any claim and are omitted from the model. -/
structure az_storage_blobs_blob_client_options where
  max_retries : Int
  retry_delay_msec : Int
  max_retry_delay_msec : Int
deriving DecidableEq

/-- az_storage_blobs_blob_client_options_default (az_storage_blobs_blob_client.c,
lines 33-55), restricted to the retry fields the source assigns explicitly. -/
def az_storage_blobs_blob_client_options_default : az_storage_blobs_blob_client_options :=
  { max_retries := 5,
    retry_delay_msec := 1 * _az_TIME_MILLISECONDS_PER_SECOND,
    max_retry_delay_msec := 30 * _az_TIME_MILLISECONDS_PER_SECOND }

/-- The six policy processing functions wired into the pipeline by
az_storage_blobs_blob_client_init (az_storage_blobs_blob_client.c,
lines 73-116), identified by name. -/
inductive az_http_policy
  | apiversion
  | telemetry
  | retry
  | credential
  | logging
  | transport
deriving DecidableEq

/-- The client struct of az_storage_blobs.h (outside the embedded sources),
restricted to the fields az_storage_blobs_blob_client.c reads or writes:
the endpoint span (its current contents), the pipeline (its ordered policy
sequence), the stored options and the credential reference. -/
structure az_storage_blobs_blob_client where
  endpoint : List Nat
  pipeline : List az_http_policy
  options : az_storage_blobs_blob_client_options
  credential : Nat
deriving DecidableEq

/-- Modelled from the spec: the fixed capacity of the endpoint/URL backing
buffers (AZ_HTTP_REQUEST_URL_BUFFER_SIZE of az_config.h, outside the
embedded sources; the spec treats buffer-size constants as external
plumbing).  The repository default of 2 * 1024 bytes is used; no claim
depends on the exact value, only on the capacity being fixed. -/
def AZ_HTTP_REQUEST_URL_BUFFER_SIZE : Nat := 2 * 1024

/-- Modelled from the spec: credential-scope wiring is out of the core's
scope (_az_credential_set_scopes lives in az_credentials, outside the
embedded sources); it is modelled as always succeeding. -/
def _az_credential_set_scopes (cred : Nat) (scopes : String) : az_result :=
  az_result.AZ_OK

/-- az_storage_blobs_blob_client_init (az_storage_blobs_blob_client.c,
lines 57-130).  The source first assigns the whole client struct (endpoint
span over the still-uncopied buffer, options, credential, and the fixed
policy sequence in the order apiversion, telemetry, retry, credential,
logging, transport), and only then checks that the endpoint fits the
buffer, returning AZ_ERROR_NOT_ENOUGH_SPACE after the struct assignment.
The uninitialized buffer contents are modelled as zero bytes.  The pair
returned is (result, contents of *out_client after the call). -/
def az_storage_blobs_blob_client_init (out_client : az_storage_blobs_blob_client)
    (endpoint : List Nat) (credential : Nat)
    (options : az_storage_blobs_blob_client_options) :
    az_result × az_storage_blobs_blob_client :=
  let c1 : az_storage_blobs_blob_client :=
    { endpoint := List.replicate AZ_HTTP_REQUEST_URL_BUFFER_SIZE 0,
      pipeline := [az_http_policy.apiversion, az_http_policy.telemetry,
        az_http_policy.retry, az_http_policy.credential,
        az_http_policy.logging, az_http_policy.transport],
      options := options,
      credential := credential }
  let uri_size := endpoint.length
  if c1.endpoint.length < uri_size then
    (az_result.AZ_ERROR_NOT_ENOUGH_SPACE, c1)
  else
    let c2 := { c1 with endpoint := endpoint }
    match _az_credential_set_scopes credential "https://storage.azure.com/.default" with
    | az_result.AZ_OK => (az_result.AZ_OK, c2)
    | e => (e, c2)

/-- Modelled from the spec: the request shape required of external
collaborators — a mutable request carrying a method, a URL, a body and
appendable headers bounded by the caller-supplied header buffer
(az_http.h is outside the embedded sources). -/
structure az_http_request where
  context : Nat
  method : String
  url : List Nat
  headers_capacity : Nat
  headers : List (String × String)
  body : List Nat
deriving DecidableEq

/-- Modelled from the spec: az_http_request_init (az_http.h, outside the
embedded sources) — the request starts with no headers, its URL being the
first url_length bytes of the supplied buffer. -/
def az_http_request_init (context : Nat) (method : String) (url : List Nat)
    (url_length : Nat) (headers_capacity : Nat) (body : List Nat) : az_http_request :=
  { context := context, method := method, url := url.take url_length,
    headers_capacity := headers_capacity, headers := [], body := body }

/-- Modelled from the spec: az_http_request_append_header (az_http.h,
outside the embedded sources) — appending past the header buffer's
capacity is a capacity error, a distinct failure value returned
immediately; otherwise the header is appended at the end. -/
def az_http_request_append_header (request : az_http_request) (name value : String) :
    Except az_result az_http_request :=
  if request.headers.length < request.headers_capacity then
    Except.ok { request with headers := request.headers ++ [(name, value)] }
  else
    Except.error az_result.AZ_ERROR_NOT_ENOUGH_SPACE

/-- Modelled from the spec: az_span_i64toa (az_span.h, outside the embedded
sources) renders an integer in decimal; the 33-byte destination buffer of
the call site always suffices for a 64-bit value, so no failure case is
modelled. -/
def az_span_i64toa (value : Int) : String := toString value

/-- Modelled from the spec: az_http_method_put (az_http.h, outside the
embedded sources), the HTTP PUT method constant. -/
def az_http_method_put : String := "PUT"

/-- Modelled from the spec: the blob upload options of az_storage_blobs.h
(outside the embedded sources); the only field the source consults is the
call context, kept opaque. -/
structure az_storage_blobs_blob_upload_options where
  context : Nat
deriving DecidableEq

/-- Modelled from the spec: az_storage_blobs_blob_upload_options_default
(az_storage_blobs.h, outside the embedded sources), a default context. -/
def az_storage_blobs_blob_upload_options_default : az_storage_blobs_blob_upload_options :=
  { context := 0 }

/-- The header-buffer capacity of az_storage_blobs_blob_client.c
(lines 20-23): room for 10 request headers. -/
def _az_STORAGE_HTTP_REQUEST_HEADER_BUFFER_SIZE : Nat := 10

/-- Modelled from the spec: a response is an opaque byte buffer owned by
the caller (az_http.h is outside the embedded sources). -/
abbrev az_http_response := List Nat

/-- The request-construction phase of az_storage_blobs_blob_upload
(az_storage_blobs_blob_client.c, lines 139-189): default the options when
NULL, copy the client endpoint into the stack URL buffer after checking it
fits, initialize a PUT request over it, then append x-ms-blob-type,
Content-Length (the decimal size of the content) and Content-Type, each
append propagating its failure immediately. -/
def az_storage_blobs_blob_upload_build_request (ref_client : az_storage_blobs_blob_client)
    (content : List Nat) (options : Option az_storage_blobs_blob_upload_options) :
    Except az_result az_http_request :=
  let opt := match options with
    | none => az_storage_blobs_blob_upload_options_default
    | some o => o
  let url_buffer : List Nat :=
    ref_client.endpoint ++
      List.replicate (AZ_HTTP_REQUEST_URL_BUFFER_SIZE - ref_client.endpoint.length) 0
  let uri_size := ref_client.endpoint.length
  if AZ_HTTP_REQUEST_URL_BUFFER_SIZE < uri_size then
    Except.error az_result.AZ_ERROR_NOT_ENOUGH_SPACE
  else do
    let request := az_http_request_init opt.context az_http_method_put url_buffer uri_size
      _az_STORAGE_HTTP_REQUEST_HEADER_BUFFER_SIZE content
    let request ← az_http_request_append_header request "x-ms-blob-type" "BlockBlob"
    let content_length_span := az_span_i64toa (content.length : Int)
    let request ← az_http_request_append_header request "Content-Length" content_length_span
    let request ← az_http_request_append_header request "Content-Type" "text/plain"
    Except.ok request

/-- az_storage_blobs_blob_upload (az_storage_blobs_blob_client.c,
lines 132-193): build the request, then start the pipeline.  The pipeline
execution engine is external to the embedded sources, so it is taken as an
explicit argument; per the spec it never alters the pipeline structure, so
the client is returned unchanged (the source performs no store through
ref_client).  The triple returned is (result, *ref_client after the call,
*ref_response after the call). -/
def az_storage_blobs_blob_upload
    (az_http_pipeline_process :
      List az_http_policy → az_http_request → az_http_response → az_result × az_http_response)
    (ref_client : az_storage_blobs_blob_client) (content : List Nat)
    (options : Option az_storage_blobs_blob_upload_options)
    (ref_response : az_http_response) :
    az_result × az_storage_blobs_blob_client × az_http_response :=
  match az_storage_blobs_blob_upload_build_request ref_client content options with
  | Except.error e => (e, ref_client, ref_response)
  | Except.ok request =>
    let r := az_http_pipeline_process ref_client.pipeline request ref_response
    (r.1, ref_client, r.2)

theorem beforeSentinel_ne_sentinel (c : Int) (F : List Int) (h : c ∈ beforeSentinel F) :
    c ≠ AZ_LOG_END_OF_LIST := by
  induction F with
  | nil => simp [beforeSentinel] at h
  | cons a rest ih =>
    unfold beforeSentinel at h
    by_cases ha : a = AZ_LOG_END_OF_LIST
    · simp [ha] at h
    · rw [if_neg ha] at h
      rcases List.mem_cons.mp h with h1 | h1
      · rw [h1]; exact ha
      · exact ih h1

theorem scanEmit_eq_map (log_it : Bool) (C : Int) (m : az_span) (F : List Int) :
    scanEmit log_it C m F =
      (scanFilter C F).map (fun b => (b, if log_it && b then [(C, m)] else [])) := by
  induction F with
  | nil => rfl
  | cons a rest ih =>
    unfold scanEmit scanFilter
    by_cases ha : a = AZ_LOG_END_OF_LIST
    · rw [if_pos ha, if_pos ha]
      simp
    · by_cases hc : a = C
      · rw [if_neg ha, if_neg ha, if_pos hc, if_pos hc]
        cases log_it <;> simp
      · rw [if_neg ha, if_neg ha, if_neg hc, if_neg hc]
        exact ih

theorem scanFilter_eq_some_true_iff (C : Int) (F : List Int) :
    scanFilter C F = some true ↔ C ∈ beforeSentinel F := by
  induction F with
  | nil => simp [scanFilter, beforeSentinel]
  | cons a rest ih =>
    unfold scanFilter beforeSentinel
    by_cases ha : a = AZ_LOG_END_OF_LIST
    · rw [if_pos ha, if_pos ha]
      simp
    · by_cases hc : a = C
      · rw [if_neg ha, if_neg ha, if_pos hc]
        simp [hc]
      · have hcc : ¬ C = a := fun h => hc h.symm
        rw [if_neg ha, if_neg ha, if_neg hc]
        simp [ih, hcc]

theorem scanFilter_isSome_of_sentinel (C : Int) (F : List Int)
    (h : AZ_LOG_END_OF_LIST ∈ F) : (scanFilter C F).isSome := by
  induction F with
  | nil => simp at h
  | cons a rest ih =>
    unfold scanFilter
    by_cases ha : a = AZ_LOG_END_OF_LIST
    · rw [if_pos ha]; rfl
    · by_cases hc : a = C
      · rw [if_neg ha, if_pos hc]; rfl
      · rw [if_neg ha, if_neg hc]
        rcases List.mem_cons.mp h with h1 | h1
        · exact absurd h1.symm ha
        · exact ih h1

theorem scanFilter_eq_none_iff (C : Int) (F : List Int) :
    scanFilter C F = none ↔ AZ_LOG_END_OF_LIST ∉ F ∧ C ∉ F := by
  induction F with
  | nil => simp [scanFilter]
  | cons a rest ih =>
    unfold scanFilter
    by_cases ha : a = AZ_LOG_END_OF_LIST
    · rw [if_pos ha]
      simp [← ha]
    · by_cases hc : a = C
      · rw [if_neg ha, if_pos hc]
        simp [← hc]
      · have hac : ¬ AZ_LOG_END_OF_LIST = a := fun h => ha h.symm
        have hcc : ¬ C = a := fun h => hc h.symm
        rw [if_neg ha, if_neg hc]
        simp [ih, hac, hcc]

theorem should_write_callback_none (C : Int) (st : LogRegistry)
    (h : st.callback = none) : _az_log_should_write C st = some false := by
  unfold _az_log_should_write _az_log_write_engine
  rw [h]
  rfl

theorem write_callback_none (C : Int) (m : az_span) (st : LogRegistry)
    (h : st.callback = none) : _az_log_write C m st = some [] := by
  unfold _az_log_write _az_log_write_engine
  rw [h]
  rfl

theorem should_write_callback_some (C : Int) (st : LogRegistry) (k : Nat)
    (h : st.callback = some k) :
    _az_log_should_write C st = scanFilter C (st.classifications.getD [C]) := by
  unfold _az_log_should_write _az_log_write_engine
  rw [h]
  show (scanEmit false C AZ_SPAN_EMPTY (st.classifications.getD [C])).map Prod.fst = _
  rw [scanEmit_eq_map]
  cases scanFilter C (st.classifications.getD [C]) <;> simp

theorem write_callback_some (C : Int) (m : az_span) (st : LogRegistry) (k : Nat)
    (h : st.callback = some k) :
    _az_log_write C m st =
      (scanFilter C (st.classifications.getD [C])).map
        (fun b => if b then [(C, m)] else []) := by
  unfold _az_log_write _az_log_write_engine
  rw [h]
  show (scanEmit true C m (st.classifications.getD [C])).map Prod.snd = _
  rw [scanEmit_eq_map]
  cases scanFilter C (st.classifications.getD [C]) <;> simp

theorem scanFilter_sentinel_self (F : List Int) (h : AZ_LOG_END_OF_LIST ∈ F) :
    scanFilter AZ_LOG_END_OF_LIST F = some false := by
  have h1 := scanFilter_isSome_of_sentinel AZ_LOG_END_OF_LIST F h
  cases hs : scanFilter AZ_LOG_END_OF_LIST F with
  | none => rw [hs] at h1; simp at h1
  | some b =>
    cases b with
    | false => rfl
    | true =>
      have h2 := (scanFilter_eq_some_true_iff AZ_LOG_END_OF_LIST F).mp hs
      exact absurd rfl (beforeSentinel_ne_sentinel _ F h2)

theorem known_ne_sentinel : ∀ c ∈ knownClassifications, c ≠ AZ_LOG_END_OF_LIST := by
  decide

/-- C1: with a callback registered and the sentinel-terminated filter F
installed, _az_log_should_write answers true exactly when the requested
classification occurs among the entries of F before the first
AZ_LOG_END_OF_LIST sentinel. -/
theorem C1_should_log_iff_mem_before_sentinel (st : LogRegistry) (C : Int) (F : List Int)
    (hcb : st.callback.isSome) (hcl : st.classifications = some F)
    (hsen : AZ_LOG_END_OF_LIST ∈ F) :
    _az_log_should_write C st = some true ↔ C ∈ beforeSentinel F := by
  obtain ⟨k, hk⟩ := Option.isSome_iff_exists.mp hcb
  rw [should_write_callback_some C st k hk, hcl, Option.getD_some]
  exact scanFilter_eq_some_true_iff C F

/-- C1 witness: with the filter [HTTP_REQUEST, HTTP_RESPONSE, sentinel]
installed and a callback registered, should_log(HTTP_RESPONSE) is true. -/
theorem C1_witness :
    _az_log_should_write AZ_LOG_HTTP_RESPONSE
      { classifications := some [AZ_LOG_HTTP_REQUEST, AZ_LOG_HTTP_RESPONSE, AZ_LOG_END_OF_LIST],
        callback := some 0 } = some true :=
  (C1_should_log_iff_mem_before_sentinel _ AZ_LOG_HTTP_RESPONSE _ (by decide) rfl
    (by decide)).mpr (by decide)

/-- C2: with no callback registered, should_log answers false and write
invokes no callback, whatever the filter slot holds (even a filter with no
sentinel, which the engine never dereferences in this case). -/
theorem C2_no_callback_silent (st : LogRegistry) (C : Int) (m : az_span)
    (h : st.callback = none) :
    _az_log_should_write C st = some false ∧ _az_log_write C m st = some [] :=
  ⟨should_write_callback_none C st h, write_callback_none C m st h⟩

/-- C2 witness: with no callback and a sentinel-free filter installed,
should_log(HTTP_REQUEST) is false and write emits nothing. -/
theorem C2_witness :
    _az_log_should_write AZ_LOG_HTTP_REQUEST
        { classifications := some [42], callback := none } = some false ∧
      _az_log_write AZ_LOG_HTTP_REQUEST [7]
        { classifications := some [42], callback := none } = some [] :=
  C2_no_callback_silent { classifications := some [42], callback := none }
    AZ_LOG_HTTP_REQUEST [7] rfl

/-- C3 counterexample: the known classification set accepted by the switch
statement of _az_log_classifications_are_valid has eight entries, not ten,
so the claim's "all ten known classifications" has no instance in the code. -/
theorem C3_counterexample_known_count :
    knownClassifications.length = 8 ∧ ¬ knownClassifications.length = 10 := by
  decide

/-- C3 (amended): with a callback registered and no filter registered,
should_log is true for every known classification; in particular, starting
from the initial state, registering a callback alone makes should_log true
for all eight known classifications and leaves the filter slot unchanged. -/
theorem C3_callback_only_default_open :
    (∀ st C, st.callback.isSome → st.classifications = none →
      C ∈ knownClassifications → _az_log_should_write C st = some true) ∧
    (∀ cb C, C ∈ knownClassifications →
      _az_log_should_write C (az_log_set_callback (some cb) az_log_initial) = some true ∧
      (az_log_set_callback (some cb) az_log_initial).classifications =
        az_log_initial.classifications) := by
  have h1 : ∀ st C, st.callback.isSome → st.classifications = none →
      C ∈ knownClassifications → _az_log_should_write C st = some true := by
    intro st C hcb hcl hC
    obtain ⟨k, hk⟩ := Option.isSome_iff_exists.mp hcb
    rw [should_write_callback_some C st k hk, hcl, Option.getD_none]
    have hne := known_ne_sentinel C hC
    simp [scanFilter, hne]
  refine ⟨h1, fun cb C hC => ⟨h1 _ C rfl rfl hC, rfl⟩⟩

/-- C3 witness: registering a callback on the initial state makes
should_log(HTTP_REQUEST) true and leaves the filter slot untouched. -/
theorem C3_witness :
    _az_log_should_write AZ_LOG_HTTP_REQUEST
        (az_log_set_callback (some 0) az_log_initial) = some true ∧
      (az_log_set_callback (some 0) az_log_initial).classifications =
        az_log_initial.classifications :=
  C3_callback_only_default_open.2 0 AZ_LOG_HTTP_REQUEST (by decide)

/-- C4: in any fixed registry state, whenever _az_log_should_write answers b,
_az_log_write invokes the callback exactly once with exactly (C, m) when b
is true, and invokes it zero times when b is false: the two entry points
agree through the shared engine. -/
theorem C4_write_agrees_with_should_log (st : LogRegistry) (C : Int) (m : az_span) (b : Bool)
    (h : _az_log_should_write C st = some b) :
    _az_log_write C m st = some (if b then [(C, m)] else []) := by
  cases hcb : st.callback with
  | none =>
    rw [should_write_callback_none C st hcb] at h
    have hb : b = false := by
      cases b
      · rfl
      · exact absurd h.symm (by simp)
    rw [write_callback_none C m st hcb, hb]
    rfl
  | some k =>
    rw [should_write_callback_some C st k hcb] at h
    rw [write_callback_some C m st k hcb, h]
    rfl

/-- C4 witness: default-open state (callback, no filter): should_log answers
true at HTTP_REQUEST and write emits exactly one callback invocation
carrying (HTTP_REQUEST, the message). -/
theorem C4_witness :
    _az_log_write AZ_LOG_HTTP_REQUEST [2]
        { classifications := none, callback := some 0 } =
      some (if true then [(AZ_LOG_HTTP_REQUEST, ([2] : az_span))] else []) :=
  C4_write_agrees_with_should_log { classifications := none, callback := some 0 }
    AZ_LOG_HTTP_REQUEST [2] true (by decide)

theorem valid_loop_iff (F : List Int) (h : AZ_LOG_END_OF_LIST ∈ F) :
    _az_log_classifications_are_valid_loop F = some true ↔
      ∀ c ∈ beforeSentinel F, c ∈ knownClassifications := by
  induction F with
  | nil => simp at h
  | cons a rest ih =>
    unfold _az_log_classifications_are_valid_loop beforeSentinel
    by_cases ha : a = AZ_LOG_END_OF_LIST
    · rw [if_pos ha, if_pos ha]
      simp
    · have hr : AZ_LOG_END_OF_LIST ∈ rest := by
        rcases List.mem_cons.mp h with h1 | h1
        · exact absurd h1.symm ha
        · exact h1
      by_cases hkn : a ∈ knownClassifications
      · rw [if_neg ha, if_neg ha, if_pos hkn]
        rw [ih hr]
        constructor
        · intro hall c hc
          rcases List.mem_cons.mp hc with h1 | h1
          · rw [h1]; exact hkn
          · exact hall c h1
        · intro hall c hc
          exact hall c (List.mem_cons_of_mem a hc)
      · rw [if_neg ha, if_neg ha, if_neg hkn]
        constructor
        · intro hfalse
          exact absurd hfalse (by simp)
        · intro hall
          exact absurd (hall a (List.mem_cons_self a _)) hkn

/-- C5: in a debug build, az_log_set_classifications accepts (no assertion
failure) exactly the null filter or a sentinel-terminated filter whose
every entry before the sentinel is a known classification; a filter with
an unknown entry before the sentinel trips the precondition (modelled as
the none result) instead of yielding an az_result error code. -/
theorem C5_set_classifications_acceptance :
    (∀ st, az_log_set_classifications none st =
      some { st with classifications := none }) ∧
    (∀ st F, AZ_LOG_END_OF_LIST ∈ F →
      ((az_log_set_classifications (some F) st).isSome ↔
        ∀ c ∈ beforeSentinel F, c ∈ knownClassifications)) := by
  constructor
  · intro st
    rfl
  · intro st F hF
    unfold az_log_set_classifications
    by_cases hv : _az_log_classifications_are_valid (some F) = some true
    · rw [if_pos hv]
      simp only [Option.isSome_some, true_iff]
      exact (valid_loop_iff F hF).mp hv
    · rw [if_neg hv]
      simp only [Option.isSome_none, Bool.false_eq_true, false_iff]
      intro hall
      exact hv ((valid_loop_iff F hF).mpr hall)

/-- C5 witness: the filter [HTTP_RETRY, sentinel] is accepted, and its sole
entry before the sentinel is indeed a known classification. -/
theorem C5_witness :
    (az_log_set_classifications (some [AZ_LOG_HTTP_RETRY, AZ_LOG_END_OF_LIST])
      az_log_initial).isSome :=
  (C5_set_classifications_acceptance.2 az_log_initial
    [AZ_LOG_HTTP_RETRY, AZ_LOG_END_OF_LIST] (by decide)).mpr (by decide)

/-- C6: when the installed filter is sentinel-terminated, the decision
engine — and hence should_log and write — terminates (returns a value) for
every classification; and the sentinel is the scan's only array-driven
stopping rule: the scan runs off the end (no fixed length bound stops it)
exactly when the filter contains neither the sentinel nor the requested
classification. -/
theorem C6_sentinel_termination :
    (∀ st (log_it : Bool) (C : Int) (m : az_span) (F : List Int),
      st.classifications = some F → AZ_LOG_END_OF_LIST ∈ F →
      (_az_log_write_engine log_it C m st).isSome ∧
        (_az_log_should_write C st).isSome ∧ (_az_log_write C m st).isSome) ∧
    (∀ (log_it : Bool) (C : Int) (m : az_span) (F : List Int),
      scanEmit log_it C m F = none ↔ AZ_LOG_END_OF_LIST ∉ F ∧ C ∉ F) := by
  have hscan : ∀ (log_it : Bool) (C : Int) (m : az_span) (F : List Int),
      AZ_LOG_END_OF_LIST ∈ F → (scanEmit log_it C m F).isSome := by
    intro log_it C m F hF
    rw [scanEmit_eq_map]
    have := scanFilter_isSome_of_sentinel C F hF
    cases hs : scanFilter C F
    · rw [hs] at this; simp at this
    · simp
  constructor
  · intro st log_it C m F hcl hF
    have heng : ∀ (li : Bool) (msg : az_span), (_az_log_write_engine li C msg st).isSome := by
      intro li msg
      unfold _az_log_write_engine
      cases hcb : st.callback with
      | none => rfl
      | some k =>
        rw [hcl, Option.getD_some]
        exact hscan li C msg F hF
    refine ⟨heng log_it m, ?_, ?_⟩
    · unfold _az_log_should_write
      have h2 := heng false AZ_SPAN_EMPTY
      cases he : _az_log_write_engine false C AZ_SPAN_EMPTY st with
      | none => rw [he] at h2; simp at h2
      | some v => simp
    · unfold _az_log_write
      have h2 := heng true m
      cases he : _az_log_write_engine true C m st with
      | none => rw [he] at h2; simp at h2
      | some v => simp
  · intro log_it C m F
    rw [scanEmit_eq_map]
    cases hs : scanFilter C F with
    | none =>
      simp only [Option.map_none']
      exact Iff.intro (fun _ => (scanFilter_eq_none_iff C F).mp hs) (fun _ => trivial)
    | some b =>
      simp only [Option.map_some']
      constructor
      · intro hnone
        exact absurd hnone (by simp)
      · intro hmem
        have := (scanFilter_eq_none_iff C F).mpr hmem
        rw [hs] at this
        exact absurd this (by simp)

/-- C6 witness: with the one-entry sentinel-terminated filter [sentinel]
installed and a callback registered, the engine, should_log and write all
terminate at classification HTTP_REQUEST. -/
theorem C6_witness :
    (_az_log_write_engine true AZ_LOG_HTTP_REQUEST []
        { classifications := some [AZ_LOG_END_OF_LIST], callback := some 0 }).isSome ∧
      (_az_log_should_write AZ_LOG_HTTP_REQUEST
        { classifications := some [AZ_LOG_END_OF_LIST], callback := some 0 }).isSome ∧
      (_az_log_write AZ_LOG_HTTP_REQUEST []
        { classifications := some [AZ_LOG_END_OF_LIST], callback := some 0 }).isSome :=
  C6_sentinel_termination.1
    { classifications := some [AZ_LOG_END_OF_LIST], callback := some 0 }
    true AZ_LOG_HTTP_REQUEST [] [AZ_LOG_END_OF_LIST] rfl (by decide)

/-- C9: in every registry state whose installed filter (if any) is
sentinel-terminated — any callback state, filter installed or absent —
should_log of AZ_LOG_END_OF_LIST itself is false and write of it invokes
no callback: the sentinel can never be emitted, because the scan's
termination test precedes the membership comparison. -/
theorem C9_sentinel_never_logged (st : LogRegistry) (m : az_span)
    (hwf : ∀ F, st.classifications = some F → AZ_LOG_END_OF_LIST ∈ F) :
    _az_log_should_write AZ_LOG_END_OF_LIST st = some false ∧
      _az_log_write AZ_LOG_END_OF_LIST m st = some [] := by
  cases hcb : st.callback with
  | none =>
    exact ⟨should_write_callback_none _ st hcb, write_callback_none _ m st hcb⟩
  | some k =>
    have hfalse : scanFilter AZ_LOG_END_OF_LIST
        (st.classifications.getD [AZ_LOG_END_OF_LIST]) = some false := by
      cases hcl : st.classifications with
      | none => rfl
      | some F =>
        rw [Option.getD_some]
        exact scanFilter_sentinel_self F (hwf F hcl)
    constructor
    · rw [should_write_callback_some _ st k hcb, hfalse]
    · rw [write_callback_some _ m st k hcb, hfalse]
      rfl

/-- C9 witness: default-open state (callback registered, no filter):
should_log(sentinel) is false and write(sentinel, m) emits nothing. -/
theorem C9_witness :
    _az_log_should_write AZ_LOG_END_OF_LIST
        { classifications := none, callback := some 3 } = some false ∧
      _az_log_write AZ_LOG_END_OF_LIST [9]
        { classifications := none, callback := some 3 } = some [] :=
  C9_sentinel_never_logged { classifications := none, callback := some 3 } [9]
    (fun F hF => by cases hF)

theorem upload_client_unchanged
    (proc : List az_http_policy → az_http_request → az_http_response →
      az_result × az_http_response)
    (client : az_storage_blobs_blob_client) (content : List Nat)
    (options : Option az_storage_blobs_blob_upload_options) (resp : az_http_response) :
    (az_storage_blobs_blob_upload proc client content options resp).2.1 = client := by
  unfold az_storage_blobs_blob_upload
  cases az_storage_blobs_blob_upload_build_request client content options <;> rfl

/-- C7: az_storage_blobs_blob_client_init always installs the pipeline in the
fixed order apiversion, telemetry, retry, credential, logging, transport;
its last element is the transport policy; and az_storage_blobs_blob_upload
(the only subsequent operation on the client) returns the client — hence
the pipeline — unchanged, for every pipeline execution engine. -/
theorem C7_pipeline_fixed_order (out_client : az_storage_blobs_blob_client)
    (endpoint : List Nat) (credential : Nat)
    (options : az_storage_blobs_blob_client_options) :
    ((az_storage_blobs_blob_client_init out_client endpoint credential options).2.pipeline =
        [az_http_policy.apiversion, az_http_policy.telemetry, az_http_policy.retry,
         az_http_policy.credential, az_http_policy.logging, az_http_policy.transport] ∧
      (az_storage_blobs_blob_client_init out_client endpoint credential
        options).2.pipeline.getLast? = some az_http_policy.transport) ∧
    (∀ (proc : List az_http_policy → az_http_request → az_http_response →
        az_result × az_http_response) (content : List Nat)
        (uopts : Option az_storage_blobs_blob_upload_options) (resp : az_http_response),
      (az_storage_blobs_blob_upload proc
          (az_storage_blobs_blob_client_init out_client endpoint credential options).2
          content uopts resp).2.1 =
        (az_storage_blobs_blob_client_init out_client endpoint credential options).2) := by
  have hpipe : (az_storage_blobs_blob_client_init out_client endpoint credential
      options).2.pipeline =
      [az_http_policy.apiversion, az_http_policy.telemetry, az_http_policy.retry,
       az_http_policy.credential, az_http_policy.logging, az_http_policy.transport] := by
    simp only [az_storage_blobs_blob_client_init]
    split <;> rfl
  refine ⟨⟨hpipe, ?_⟩, ?_⟩
  · rw [hpipe]
    rfl
  · intro proc content uopts resp
    exact upload_client_unchanged proc _ content uopts resp

/-- C8 counterexample: an endpoint of 2049 bytes does not fit the 2048-byte
client buffer; az_storage_blobs_blob_client_init returns the distinct
capacity failure, yet *out_client (a client whose pipeline slot was empty
before the call) has been overwritten by the failed operation — observable
state is modified. -/
theorem C8_counterexample_init_modifies_out_client :
    (az_storage_blobs_blob_client_init
          { endpoint := [], pipeline := [],
            options := az_storage_blobs_blob_client_options_default, credential := 0 }
          (List.replicate 2049 0) 0 az_storage_blobs_blob_client_options_default).1 =
        az_result.AZ_ERROR_NOT_ENOUGH_SPACE ∧
      (az_storage_blobs_blob_client_init
          { endpoint := [], pipeline := [],
            options := az_storage_blobs_blob_client_options_default, credential := 0 }
          (List.replicate 2049 0) 0 az_storage_blobs_blob_client_options_default).2 ≠
        { endpoint := [], pipeline := [],
          options := az_storage_blobs_blob_client_options_default, credential := 0 } := by
  have hlt : (List.replicate AZ_HTTP_REQUEST_URL_BUFFER_SIZE (0 : Nat)).length <
      (List.replicate 2049 (0 : Nat)).length := by
    rw [List.length_replicate, List.length_replicate]
    norm_num [AZ_HTTP_REQUEST_URL_BUFFER_SIZE]
  constructor
  · unfold az_storage_blobs_blob_client_init
    rw [if_pos hlt]
  · unfold az_storage_blobs_blob_client_init
    rw [if_pos hlt]
    intro heq
    have hp := congrArg az_storage_blobs_blob_client.pipeline heq
    simp at hp

/-- C8 (amended): a constructed value that does not fit its backing storage
makes the operation return the distinct failure AZ_ERROR_NOT_ENOUGH_SPACE
immediately.  In az_storage_blobs_blob_upload nothing is partially applied:
the pipeline is never started and the client and response are returned
unchanged.  In az_storage_blobs_blob_client_init the failure is likewise
immediate, but *out_client has already been overwritten with the partially
initialized client (pipeline and options already installed) before the
size check runs. -/
theorem C8_capacity_failure_immediate :
    (∀ (out_client : az_storage_blobs_blob_client) (endpoint : List Nat)
        (credential : Nat) (options : az_storage_blobs_blob_client_options),
      AZ_HTTP_REQUEST_URL_BUFFER_SIZE < endpoint.length →
      (az_storage_blobs_blob_client_init out_client endpoint credential options).1 =
          az_result.AZ_ERROR_NOT_ENOUGH_SPACE ∧
        (az_storage_blobs_blob_client_init out_client endpoint credential
          options).2.pipeline =
          [az_http_policy.apiversion, az_http_policy.telemetry, az_http_policy.retry,
           az_http_policy.credential, az_http_policy.logging, az_http_policy.transport] ∧
        (az_storage_blobs_blob_client_init out_client endpoint credential
          options).2.options = options) ∧
    (∀ (proc : List az_http_policy → az_http_request → az_http_response →
        az_result × az_http_response) (client : az_storage_blobs_blob_client)
        (content : List Nat) (uopts : Option az_storage_blobs_blob_upload_options)
        (resp : az_http_response),
      AZ_HTTP_REQUEST_URL_BUFFER_SIZE < client.endpoint.length →
      az_storage_blobs_blob_upload proc client content uopts resp =
        (az_result.AZ_ERROR_NOT_ENOUGH_SPACE, client, resp)) := by
  constructor
  · intro oc ep cred opts h
    have hlt : (List.replicate AZ_HTTP_REQUEST_URL_BUFFER_SIZE (0 : Nat)).length <
        ep.length := by
      rw [List.length_replicate]
      exact h
    unfold az_storage_blobs_blob_client_init
    rw [if_pos hlt]
    exact ⟨rfl, rfl, rfl⟩
  · intro proc client content uopts resp h
    unfold az_storage_blobs_blob_upload az_storage_blobs_blob_upload_build_request
    rw [if_pos h]

/-- C8 witness: a client whose endpoint slot somehow holds 2049 bytes makes
upload fail with the capacity error, leaving client and response as they
were, under a pipeline engine that would have answered AZ_OK. -/
theorem C8_witness :
    az_storage_blobs_blob_upload (fun _ _ r => (az_result.AZ_OK, r))
        { endpoint := List.replicate 2049 0, pipeline := [],
          options := az_storage_blobs_blob_client_options_default, credential := 0 }
        [] none [] =
      (az_result.AZ_ERROR_NOT_ENOUGH_SPACE,
        { endpoint := List.replicate 2049 0, pipeline := [],
          options := az_storage_blobs_blob_client_options_default, credential := 0 },
        []) :=
  C8_capacity_failure_immediate.2 (fun _ _ r => (az_result.AZ_OK, r))
    { endpoint := List.replicate 2049 0, pipeline := [],
      options := az_storage_blobs_blob_client_options_default, credential := 0 }
    [] none []
    (by rw [List.length_replicate]; norm_num [AZ_HTTP_REQUEST_URL_BUFFER_SIZE])

/-- C10: whenever az_storage_blobs_blob_upload successfully constructs its
request — with the options argument absent (defaults) or supplied — the
request is a PUT carrying exactly three appended headers, in order:
x-ms-blob-type: BlockBlob, Content-Length: the decimal rendering of the
content's byte size, and Content-Type: text/plain. -/
theorem C10_upload_request_shape (client : az_storage_blobs_blob_client)
    (content : List Nat) (options : Option az_storage_blobs_blob_upload_options)
    (request : az_http_request)
    (h : az_storage_blobs_blob_upload_build_request client content options =
      Except.ok request) :
    request.method = az_http_method_put ∧
      request.headers =
        [("x-ms-blob-type", "BlockBlob"),
         ("Content-Length", az_span_i64toa (content.length : Int)),
         ("Content-Type", "text/plain")] := by
  unfold az_storage_blobs_blob_upload_build_request at h
  split at h
  · simp only [az_http_request_init, az_http_request_append_header,
      _az_STORAGE_HTTP_REQUEST_HEADER_BUFFER_SIZE, bind, Except.bind] at h
    norm_num at h
    split at h
    · exact absurd h (by simp)
    · injection h with h2
      rw [← h2]
      exact ⟨rfl, rfl⟩
  · simp only [az_http_request_init, az_http_request_append_header,
      _az_STORAGE_HTTP_REQUEST_HEADER_BUFFER_SIZE, bind, Except.bind] at h
    norm_num at h
    split at h
    · exact absurd h (by simp)
    · injection h with h2
      rw [← h2]
      exact ⟨rfl, rfl⟩

/-- C10 witness: a client with an empty endpoint uploading the two-byte
content [5, 6] with no options yields a PUT request carrying exactly the
three headers, in order. -/
theorem C10_witness :
    (az_http_request.mk az_storage_blobs_blob_upload_options_default.context
        az_http_method_put [] _az_STORAGE_HTTP_REQUEST_HEADER_BUFFER_SIZE
        [("x-ms-blob-type", "BlockBlob"),
         ("Content-Length", az_span_i64toa (([5, 6] : List Nat).length : Int)),
         ("Content-Type", "text/plain")] [5, 6]).method = az_http_method_put ∧
      (az_http_request.mk az_storage_blobs_blob_upload_options_default.context
        az_http_method_put [] _az_STORAGE_HTTP_REQUEST_HEADER_BUFFER_SIZE
        [("x-ms-blob-type", "BlockBlob"),
         ("Content-Length", az_span_i64toa (([5, 6] : List Nat).length : Int)),
         ("Content-Type", "text/plain")] [5, 6]).headers =
        [("x-ms-blob-type", "BlockBlob"),
         ("Content-Length", az_span_i64toa (([5, 6] : List Nat).length : Int)),
         ("Content-Type", "text/plain")] :=
  C10_upload_request_shape
    { endpoint := [], pipeline := [],
      options := az_storage_blobs_blob_client_options_default, credential := 0 }
    [5, 6] none _ (by rfl)
